import Mathlib

/-!
Verification development for the crisis risk assessment engine of the
mood-tracker repository (`backend/app/ai/crisis_detector.py`).

Shallow embedding conventions:
* Python strings are modelled as lists of characters (`Str`), Python floats
  as rationals, Python dictionaries with known keys as structures whose
  optional keys become `Option` fields.
* The wall-clock readings taken by the engine (`datetime.now()`) are passed
  in explicitly as a `Clock` value.
* The `try ... except` block of `assess_crisis_risk` is modelled by an
  explicit `Option Str` argument: `some msg` represents an exception with
  message `msg` raised inside the block, `none` the normal path.  All
  embedded computations are total, so the normal path is a pure function.
* The optional AI sentiment collaborator (behind `model_manager`) is an
  external service; its reply is passed in as an `Option AIResult`
  (`none` when the model is unavailable or its call failed).
-/

namespace CrisisModel

/-- Python strings are modelled as lists of characters. -/
abbrev Str := List Char

/-- Convenience: turn a list of Lean string literals into `List Str`. -/
def strs (xs : List String) : List Str := xs.map String.toList

/-- Containment test modelling the Python `in` operator on strings:
`needle in hay` is substring containment. -/
def pyContains (hay needle : Str) : Bool := decide (needle <:+: hay)

/-- Lowest index at which `needle` occurs in `hay`, modelling `str.find`
(which returns -1, modelled here as `none`, when the needle is absent). -/
def pyFind? (hay needle : Str) : Option Nat :=
  (List.range (hay.length + 1)).find? (fun i => decide (needle <+: hay.drop i))

/-- Python `str.lower`, character by character (exact for the ASCII texts
handled by the detector). -/
def pyLower (s : Str) : Str := s.map Char.toLower

/-- Whitespace characters recognised by Python `str.strip` and `str.split`. -/
def isPySpace (c : Char) : Bool :=
  c = ' ' || c = '\t' || c = '\n' || c = '\r' || c = '\x0b' || c = '\x0c'

/-- Python `str.strip()`: drop whitespace from both ends. -/
def pyStrip (s : Str) : Str :=
  ((s.dropWhile isPySpace).reverse.dropWhile isPySpace).reverse

/-- Python slice `s[a:b]` for nonnegative clamped bounds. -/
def pySlice (s : Str) (a b : Nat) : Str := (s.take b).drop a

/-- Python `str.split()` without separator: split on whitespace, dropping
empty pieces. -/
def pySplitWs (s : Str) : List Str := (s.splitOnP isPySpace).filter (fun w => !w.isEmpty)

/-- Python `sep.join(xs)`. -/
def pyJoin (sep : Str) (xs : List Str) : Str := List.intercalate sep xs

/-- Python `round(x, 3)`: rounding to three decimal places.  Python rounds
the underlying binary float half to even; on the exact rationals used here
the idealisation rounds half up, which agrees off ties. -/
def round3 (x : ℚ) : ℚ := ((round (x * 1000) : ℤ) : ℚ) / 1000

/-- Word characters for the regex word boundary (ASCII word class). -/
def isWordChar (c : Char) : Bool := c.isAlphanum || c = '_'

/-- Does the literal alternative `p` match `text` at position `i` with word
boundaries on both sides?  This models the regex shape used throughout the
detector: a word-bounded alternation of literal words and phrases. -/
def boundedMatchAt (text : Str) (i : Nat) (p : Str) : Bool :=
  decide (p <+: text.drop i) &&
  (i == 0 || !isWordChar (text.getD (i - 1) ' ')) &&
  (decide (text.length ≤ i + p.length) || !isWordChar (text.getD (i + p.length) ' '))

/-- First alternative that matches at position `i` (regex alternation
preference order; optional suffixes such as a plural s are expanded into
separate alternatives, longest first, to model greediness). -/
def patMatchAt (alts : List Str) (text : Str) (i : Nat) : Option Str :=
  alts.find? (fun p => boundedMatchAt text i p)

/-- Leftmost match of a word-bounded alternation together with its
position, modelling `re.search`. -/
def patFirstMatch? (alts : List Str) (text : Str) : Option (Nat × Str) :=
  (List.range (text.length + 1)).findSome?
    (fun i => (patMatchAt alts text i).map (fun p => (i, p)))

/-- Boolean form of `re.search` for a word-bounded alternation. -/
def patSearch (alts : List Str) (text : Str) : Bool := (patFirstMatch? alts text).isSome

/-- Fuelled scan for `re.findall`: successive non-overlapping leftmost
matches, resuming after the end of each match. -/
def patFindAllAux (alts : List Str) (text : Str) : Nat → Nat → List Str
  | 0, _ => []
  | fuel + 1, i =>
    if text.length < i then []
    else
      match patMatchAt alts text i with
      | some p => p :: patFindAllAux alts text fuel (i + p.length)
      | none => patFindAllAux alts text fuel (i + 1)

/-- All non-overlapping matches of a word-bounded alternation
(`re.findall`; with a single group the matched word itself is returned). -/
def patFindAll (alts : List Str) (text : Str) : List Str :=
  patFindAllAux alts text (text.length + 1) 0

/-- Risk level enumeration (`RiskLevel`). -/
inductive RiskLevel where
  | MINIMAL
  | LOW
  | MEDIUM
  | HIGH
  | CRITICAL
  | IMMINENT
  deriving DecidableEq, Repr

/-- Intervention type enumeration (`InterventionType`). -/
inductive InterventionType where
  | NONE
  | SELF_HELP
  | PROFESSIONAL_REFERRAL
  | CRISIS_CONTACT
  | EMERGENCY_SERVICES
  | IMMEDIATE_INTERVENTION
  deriving DecidableEq, Repr

/-- Individual crisis indicator (`CrisisIndicator` dataclass). -/
structure CrisisIndicator where
  category : Str
  severity : ℚ
  keywords_found : List Str
  context : Str
  confidence : ℚ
  urgency_level : Str
  deriving DecidableEq, Repr

/-- One recommended crisis resource record (the `type` dictionary key is
rendered as `rtype`). -/
structure Resource where
  name : Str
  contact : Str
  rtype : Str
  availability : Str
  description : Str
  deriving DecidableEq, Repr

/-- The `assessment_metadata` dictionary.  Keys that are present only on
some code paths become `Option` fields (`none` models an absent key). -/
structure AssessmentMetadata where
  processing_time_ms : ℚ
  text_length : Nat
  indicators_found : Nat
  protective_factors_count : Option Nat
  risk_factors_count : Option Nat
  assessment_method : Str
  timestamp : Str
  requires_human_review : Option Bool
  error : Option Str
  deriving DecidableEq, Repr

/-- Complete crisis assessment result (`CrisisAssessment` dataclass). -/
structure CrisisAssessment where
  risk_level : RiskLevel
  risk_score : ℚ
  intervention_type : InterventionType
  crisis_indicators : List CrisisIndicator
  protective_factors : List Str
  risk_factors : List Str
  immediate_actions : List Str
  resources_recommended : List Resource
  assessment_metadata : AssessmentMetadata
  deriving DecidableEq, Repr

/-- Wall-clock readings taken during one call to `datetime.now()`: the local
hour consulted by `_identify_risk_factors`, and the opaque timestamp and
elapsed-time values recorded in the metadata. -/
structure Clock where
  hour : Nat
  timestamp : Str
  processing_ms : ℚ
  deriving DecidableEq, Repr

/-- The optional `context` dictionary passed to `assess_crisis_risk`. -/
structure Context where
  mood_score : Option ℚ
  emotions : List Str
  recent_mood_decline : Bool
  deriving DecidableEq, Repr

/-- The optional `user_history` dictionary.  The `dict.get` defaults of the
source (0 for counts, falsy for flags) are baked into the field types, so an
absent key is the same as the default value, exactly as in the code. -/
structure History where
  previous_crisis_incidents : Nat
  recent_major_loss : Bool
  substance_abuse_history : Bool
  previous_attempts : Nat
  crisis_incidents_last_month : Nat
  deriving DecidableEq, Repr

/-- Reply of the external AI sentiment collaborator consulted by
`_detect_ai_indicators` (the `crisis_assessment` sub-dictionary). -/
structure AIResult where
  risk_score : ℚ
  risk_indicators : List Str
  risk_level : Str
  deriving DecidableEq, Repr

/-- One leaf of the crisis keyword taxonomy. -/
structure LeafData where
  keywords : List Str
  severity : ℚ
  urgency : Str
  intervention : InterventionType
  deriving DecidableEq, Repr

/-- The full `crisis_taxonomy` nested dictionary, in insertion order. -/
def crisis_taxonomy : List (Str × List (Str × LeafData)) :=
  [("imminent_danger".toList,
    [("suicide_explicit".toList,
      { keywords := strs ["kill myself", "end my life", "take my own life", "suicide plan",
          "going to kill myself", "want to die today", "tonight is the night",
          "this is goodbye", "final message", "last time", "won\x27t see me again"]
        severity := 1.0
        urgency := "immediate".toList
        intervention := InterventionType.IMMEDIATE_INTERVENTION }),
     ("self_harm_immediate".toList,
      { keywords := strs ["cutting myself now", "about to hurt myself", "pills in hand",
          "rope ready", "bridge nearby", "gun loaded", "razor blade",
          "overdose tonight", "jumping off"]
        severity := 0.95
        urgency := "immediate".toList
        intervention := InterventionType.EMERGENCY_SERVICES }),
     ("method_specific".toList,
      { keywords := strs ["hanging", "overdose", "pills", "bridge", "train tracks",
          "gun", "knife", "razor", "poison", "carbon monoxide",
          "cliff", "tall building"]
        severity := 0.9
        urgency := "immediate".toList
        intervention := InterventionType.CRISIS_CONTACT })]),
   ("high_risk_ideation".toList,
    [("suicide_ideation".toList,
      { keywords := strs ["want to die", "wish I was dead", "better off dead",
          "end it all", "can\x27t go on", "no point living",
          "world without me", "everyone better without me",
          "suicide", "kill myself", "end my life"]
        severity := 0.8
        urgency := "high".toList
        intervention := InterventionType.CRISIS_CONTACT }),
     ("hopelessness_severe".toList,
      { keywords := strs ["no hope", "hopeless", "nothing will change",
          "permanent solution", "only way out", "escape",
          "relief from pain", "end the suffering"]
        severity := 0.75
        urgency := "high".toList
        intervention := InterventionType.CRISIS_CONTACT }),
     ("worthlessness_extreme".toList,
      { keywords := strs ["worthless", "useless", "burden to everyone",
          "waste of space", "failure", "mistake",
          "shouldn\x27t exist", "deserve to die"]
        severity := 0.7
        urgency := "high".toList
        intervention := InterventionType.PROFESSIONAL_REFERRAL })]),
   ("medium_risk_warning".toList,
    [("self_harm_ideation".toList,
      { keywords := strs ["hurt myself", "self harm", "cut myself",
          "burn myself", "punish myself", "deserve pain",
          "cutting", "burning", "hitting myself"]
        severity := 0.6
        urgency := "medium".toList
        intervention := InterventionType.PROFESSIONAL_REFERRAL }),
     ("isolation_severe".toList,
      { keywords := strs ["nobody cares", "all alone", "no one understands",
          "completely isolated", "abandoned", "forgotten",
          "invisible", "doesn\x27t matter"]
        severity := 0.55
        urgency := "medium".toList
        intervention := InterventionType.PROFESSIONAL_REFERRAL }),
     ("mood_deterioration".toList,
      { keywords := strs ["getting worse", "spiraling down", "falling apart",
          "losing control", "breaking down", "can\x27t cope",
          "overwhelmed", "drowning"]
        severity := 0.5
        urgency := "medium".toList
        intervention := InterventionType.PROFESSIONAL_REFERRAL })]),
   ("behavioral_warnings".toList,
    [("giving_away_possessions".toList,
      { keywords := strs ["giving away", "don\x27t need anymore", "take my things",
          "saying goodbye", "final arrangements", "will and testament",
          "last wishes", "goodbye letter"]
        severity := 0.8
        urgency := "high".toList
        intervention := InterventionType.CRISIS_CONTACT }),
     ("social_withdrawal".toList,
      { keywords := strs ["staying away from everyone", "don\x27t want to see anyone",
          "canceling everything", "pushing people away",
          "isolating myself", "avoiding contact"]
        severity := 0.4
        urgency := "medium".toList
        intervention := InterventionType.PROFESSIONAL_REFERRAL }),
     ("substance_abuse_escalation".toList,
      { keywords := strs ["drinking more", "using more drugs", "numbing the pain",
          "escape reality", "too many pills", "overdose",
          "blackout", "lose consciousness"]
        severity := 0.6
        urgency := "medium".toList
        intervention := InterventionType.PROFESSIONAL_REFERRAL })])]

/-- The `protective_factors` keyword table. -/
def protective_factors : List (Str × List Str) :=
  [("social_support".toList,
    strs ["family", "friends", "support", "help", "care about me",
      "love me", "there for me", "talk to someone", "reach out"]),
   ("future_orientation".toList,
    strs ["tomorrow", "next week", "future", "plans", "goals",
      "looking forward", "excited about", "hoping for"]),
   ("coping_strategies".toList,
    strs ["therapy", "counseling", "meditation", "exercise",
      "breathing", "coping", "managing", "treatment"]),
   ("help_seeking".toList,
    strs ["getting help", "seeing therapist", "calling hotline",
      "seeking support", "asking for help", "professional help"]),
   ("meaning_purpose".toList,
    strs ["purpose", "meaning", "reason to live", "responsibility",
      "children", "pets", "dreams", "passion"])]

/-- The `context_multipliers` table (defined in the source constructor but
never consulted by any method; kept for completeness). -/
def context_multipliers : List (Str × ℚ) :=
  [("recent_loss".toList, 1.3), ("anniversary_date".toList, 1.2),
   ("holiday_period".toList, 1.1), ("late_night".toList, 1.2),
   ("substance_mention".toList, 1.4), ("previous_attempt".toList, 1.5),
   ("specific_plan".toList, 1.8), ("means_available".toList, 1.9)]

/-- The `temporal_urgency_patterns` regexes, as word-bounded alternations. -/
def temporal_urgency_patterns : List (Str × List Str) :=
  [("immediate".toList, strs ["now", "today", "tonight", "right now", "this moment", "about to"]),
   ("soon".toList, strs ["tomorrow", "this week", "soon", "planning to", "going to"]),
   ("vague".toList, strs ["someday", "eventually", "thinking about", "considering"])]

/-- `_calculate_keyword_confidence` (the `text` argument is accepted but
unused, as in the source). -/
def calculate_keyword_confidence (text : Str) (found_keywords all_keywords : List Str) : ℚ :=
  let base := min ((found_keywords.length : ℚ) / (all_keywords.length : ℚ)) 1
  let base := if 1 < found_keywords.length then base * 1.2 else base
  let base := found_keywords.foldl
    (fun b kw => if 1 < (pySplitWs kw).length then b * 1.1 else b) base
  min base 1

/-- The negation token list of `_check_negation_context`. -/
def negation_words : List Str :=
  strs ["not", "never", "no", "nothing", "nowhere", "nobody", "none",
    "don\x27t", "won\x27t", "can\x27t"]

/-- `_check_negation_context`: a keyword counts as negated when the 20
characters before its first occurrence contain a negation token as a
substring (a keyword found at position 0 is never negated). -/
def check_negation_context (text : Str) (keywords : List Str) : Bool :=
  keywords.any (fun kw =>
    match pyFind? text kw with
    | some pos =>
      decide (0 < pos) &&
        negation_words.any (fun neg => pyContains (pyLower (pySlice text (pos - 20) pos)) neg)
    | none => false)

/-- `_extract_keyword_context`: up to three 60-character windows around
keyword occurrences, joined with a separator. -/
def extract_keyword_context (text : Str) (keywords : List Str) : Str :=
  let contexts := keywords.filterMap (fun kw =>
    match pyFind? (pyLower text) kw with
    | some pos =>
      some (pyStrip (pySlice text (pos - 30) (min text.length (pos + kw.length + 30))))
    | none => none)
  pyJoin " | ".toList (contexts.take 3)

/-- `_extract_pattern_context`: the window around the first regex match. -/
def extract_pattern_context (text : Str) (alts : List Str) : Str :=
  match patFirstMatch? alts text with
  | some (i, p) => pyStrip (pySlice text (i - 30) (min text.length (i + p.length + 30)))
  | none => "pattern_context".toList

/-- `_urgency_to_multiplier`. -/
def urgency_to_multiplier (urgency : Str) : ℚ :=
  if urgency = "immediate".toList then 1.5
  else if urgency = "high".toList then 1.3
  else if urgency = "medium".toList then 1.1
  else if urgency = "low".toList then 1.0
  else 1.0

/-- Body of the taxonomy loop of `_detect_keyword_indicators` for one leaf:
the indicator emitted for `(category, subcategory, data)`, if any keyword of
the leaf occurs in the text. -/
def keyword_leaf_indicator (text : Str) (category subcategory : Str) (d : LeafData) :
    Option CrisisIndicator :=
  let found_keywords := d.keywords.filter (fun kw => pyContains text kw)
  if found_keywords.isEmpty then none
  else
    let confidence := calculate_keyword_confidence text found_keywords d.keywords
    let is_negated := check_negation_context text found_keywords
    let confidence := if is_negated then confidence * 0.3 else confidence
    let severity := if is_negated then d.severity * 0.5 else d.severity
    some
      { category := category ++ '_' :: subcategory
        severity := severity
        keywords_found := found_keywords
        context := extract_keyword_context text found_keywords
        confidence := confidence
        urgency_level := d.urgency }

/-- `_detect_keyword_indicators`: one indicator per taxonomy leaf with at
least one keyword occurrence, in taxonomy order. -/
def detect_keyword_indicators (text : Str) : List CrisisIndicator :=
  crisis_taxonomy.flatMap (fun cs =>
    cs.2.filterMap (fun sd => keyword_leaf_indicator text cs.1 sd.1 sd.2))

/-- The severity table for temporal urgency patterns
(`{immediate: 0.9, soon: 0.7, vague: 0.4}.get(urgency_level, 0.5)`). -/
def temporal_severity (urgency_level : Str) : ℚ :=
  if urgency_level = "immediate".toList then 0.9
  else if urgency_level = "soon".toList then 0.7
  else if urgency_level = "vague".toList then 0.4
  else 0.5

/-- The `method_patterns` regexes of `_detect_pattern_indicators`
(the optional plural in the first one is expanded, longest first). -/
def method_patterns : List (Str × List Str) :=
  [("specific_method".toList,
    strs ["pills", "pill", "rope", "gun", "knife", "bridge", "cliff", "overdose", "hanging"]),
   ("location_specific".toList,
    strs ["bridge", "roof", "track", "highway", "cliff", "tall building"]),
   ("final_actions".toList,
    strs ["goodbye", "farewell", "last time", "final", "won\x27t see"])]

/-- The `escalation_patterns` regexes, in order (index 0, 1, 2). -/
def escalation_patterns : List (List Str) :=
  [strs ["getting worse", "spiraling", "falling apart", "losing control"],
   strs ["can\x27t take", "can\x27t handle", "too much", "overwhelming"],
   strs ["breaking point", "last straw", "enough", "end of rope"]]

/-- Decimal rendering of a natural number index (for f-string categories). -/
def natToStr (n : Nat) : Str := (toString n).toList

/-- `_detect_pattern_indicators`: temporal urgency, method specification and
escalation patterns. -/
def detect_pattern_indicators (text : Str) : List CrisisIndicator :=
  (temporal_urgency_patterns.flatMap (fun up =>
    if patSearch up.2 text then
      [{ category := "temporal_urgency_".toList ++ up.1
         severity := temporal_severity up.1
         keywords_found := ["temporal_pattern_".toList ++ up.1]
         context := extract_pattern_context text up.2
         confidence := 0.7
         urgency_level := up.1 }]
    else []))
  ++ (method_patterns.flatMap (fun np =>
    let found_matches := patFindAll np.2 text
    if found_matches.isEmpty then []
    else
      [{ category := "method_pattern_".toList ++ np.1
         severity := if np.1 = "specific_method".toList then 0.8 else 0.7
         keywords_found := found_matches
         context := extract_pattern_context text np.2
         confidence := 0.8
         urgency_level := "high".toList }]))
  ++ (escalation_patterns.enum.flatMap (fun ip =>
    if patSearch ip.2 text then
      [{ category := "escalation_pattern_".toList ++ natToStr ip.1
         severity := 0.6
         keywords_found := ["escalation_".toList ++ natToStr ip.1]
         context := extract_pattern_context text ip.2
         confidence := 0.6
         urgency_level := "medium".toList }]
    else []))

/-- Phrase list 1 of `_detect_contextual_indicators`. -/
def final_arrangements : List Str :=
  strs ["saying goodbye", "last message", "final words", "goodbye letter",
    "will and testament", "take care of", "look after", "remember me"]

/-- Phrase list 2 of `_detect_contextual_indicators`. -/
def closure_phrases : List Str :=
  strs ["won\x27t see you again", "this is goodbye", "last time talking",
    "forgive me", "sorry for everything", "it\x27s not your fault"]

/-- Phrase list 3 of `_detect_contextual_indicators`. -/
def pain_escape : List Str :=
  strs ["end the pain", "stop the hurt", "make it stop", "can\x27t bear",
    "unbearable", "too painful", "suffering too much"]

/-- `_detect_contextual_indicators`. -/
def detect_contextual_indicators (text : Str) : List CrisisIndicator :=
  (let found := final_arrangements.filter (fun p => pyContains text p)
   if found.isEmpty then []
   else
     [{ category := "final_arrangements".toList
        severity := 0.85
        keywords_found := found
        context := "contextual_language".toList
        confidence := 0.8
        urgency_level := "high".toList }])
  ++ (let found := closure_phrases.filter (fun p => pyContains text p)
      if found.isEmpty then []
      else
        [{ category := "social_closure".toList
           severity := 0.9
           keywords_found := found
           context := "closure_language".toList
           confidence := 0.85
           urgency_level := "immediate".toList }])
  ++ (let found := pain_escape.filter (fun p => pyContains text p)
      if found.isEmpty then []
      else
        [{ category := "pain_escape".toList
           severity := 0.7
           keywords_found := found
           context := "pain_language".toList
           confidence := 0.7
           urgency_level := "high".toList }])

/-- `_detect_ai_indicators`: the indicator built from the external AI
sentiment reply, when the model is available, the call succeeded and its
reported score passes the 0.3 gate. -/
def detect_ai_indicators (ai : Option AIResult) : List CrisisIndicator :=
  match ai with
  | none => []
  | some r =>
    if 0.3 < r.risk_score then
      [{ category := "ai_sentiment_crisis".toList
         severity := r.risk_score
         keywords_found := r.risk_indicators
         context := "ai_sentiment_analysis".toList
         confidence := 0.7
         urgency_level := r.risk_level }]
    else []

/-- Merge of two indicators of the same category inside
`_deduplicate_indicators`: maxima of severity and confidence, concatenated
keyword lists; category, context and urgency level stay those of the
retained (first) indicator. -/
def mergeInd (existing ind : CrisisIndicator) : CrisisIndicator :=
  { existing with
    severity := max existing.severity ind.severity
    confidence := max existing.confidence ind.confidence
    keywords_found := existing.keywords_found ++ ind.keywords_found }

/-- One iteration of the `_deduplicate_indicators` loop.  The accumulator
always has pairwise distinct categories, so mapping the merge over all
elements of the matching category updates exactly the single existing
indicator, as the `next(...)` call does in the source. -/
def dedupStep (acc : List CrisisIndicator) (ind : CrisisIndicator) : List CrisisIndicator :=
  if acc.any (fun e => decide (e.category = ind.category)) then
    acc.map (fun e => if e.category = ind.category then mergeInd e ind else e)
  else acc ++ [ind]

/-- `_deduplicate_indicators`. -/
def deduplicate_indicators (indicators : List CrisisIndicator) : List CrisisIndicator :=
  indicators.foldl dedupStep []

/-- The final `list.sort(key=severity, reverse=True)`: a stable sort by
descending severity (a stable insertion sort computes exactly the order of
the stable Python sort with `reverse=True`: ties keep their input order). -/
def sortIndicators (l : List CrisisIndicator) : List CrisisIndicator :=
  l.insertionSort (fun a b => b.severity ≤ a.severity)

/-- `_detect_crisis_indicators`: keyword, pattern, contextual and AI
detection on the lower-cased text, then deduplication and sorting. -/
def detect_crisis_indicators (ai : Option AIResult) (text : Str) : List CrisisIndicator :=
  let text_lower := pyLower text
  let indicators :=
    detect_keyword_indicators text_lower
    ++ detect_pattern_indicators text_lower
    ++ detect_contextual_indicators text_lower
    ++ detect_ai_indicators ai
  sortIndicators (deduplicate_indicators indicators)

/-- `_detect_protective_factors`. -/
def detect_protective_factors (text : Str) : List Str :=
  let text_lower := pyLower text
  protective_factors.flatMap (fun fk =>
    let found := fk.2.filter (fun kw => pyContains text_lower kw)
    found.map (fun kw => fk.1 ++ ": ".toList ++ kw))

/-- The `high_risk_emotions` list of `_identify_risk_factors`. -/
def high_risk_emotions : List Str := strs ["hopeless", "worthless", "trapped", "desperate"]

/-- `_identify_risk_factors`: context, history and time-of-day risk factors
(the `text` argument is accepted but unused, as in the source). -/
def identify_risk_factors (clk : Clock) (text : Str) (context : Option Context)
    (user_history : Option History) : List Str :=
  let context_part : List Str :=
    match context with
    | none => []
    | some c =>
      (let mood := c.mood_score.getD 5
       if mood ≤ 2 then ["Very low mood score".toList]
       else if mood ≤ 4 then ["Low mood score".toList]
       else [])
      ++ (let found := c.emotions.filter (fun e => decide (e ∈ high_risk_emotions))
          if found.isEmpty then []
          else ["High-risk emotions: ".toList ++ pyJoin ", ".toList found])
  let history_part : List Str :=
    match user_history with
    | none => []
    | some h =>
      (if 0 < h.previous_crisis_incidents then ["Previous crisis incidents".toList] else [])
      ++ (if h.recent_major_loss then ["Recent major loss or trauma".toList] else [])
      ++ (if h.substance_abuse_history then ["History of substance abuse".toList] else [])
  let time_part : List Str :=
    if 22 ≤ clk.hour ∨ clk.hour ≤ 6 then ["Late night/early morning timing".toList] else []
  context_part ++ history_part ++ time_part

/-- Python `max` over a list of rationals (the source applies it only to
nonempty lists; the empty case is given an arbitrary value). -/
def maxQ : List ℚ → ℚ
  | [] => 0
  | x :: xs => xs.foldl max x

/-- `_calculate_base_risk_score`: confidence-weighted average of severities,
plus an indicator-count bonus scaled by the maximal urgency multiplier,
capped at 1 and rounded to three decimals. -/
def calculate_base_risk_score (indicators : List CrisisIndicator) : ℚ :=
  if indicators.isEmpty then 0
  else
    let total_weighted_score := (indicators.map (fun i => i.severity * i.confidence)).sum
    let total_weight := (indicators.map (fun i => i.confidence)).sum
    if total_weight = 0 then 0
    else
      let base_score := total_weighted_score / total_weight
      let indicator_bonus := min ((indicators.length : ℚ) * 0.05) 0.2
      let max_urgency := maxQ (indicators.map (fun i => urgency_to_multiplier i.urgency_level))
      round3 (min (base_score + indicator_bonus * max_urgency) 1)

/-- The substance keyword list of `_apply_contextual_adjustments`. -/
def substance_keywords : List Str := strs ["drunk", "high", "pills", "alcohol", "drugs"]

/-- The plan-specificity keyword list of `_apply_contextual_adjustments`. -/
def plan_keywords : List Str := strs ["plan", "method", "when", "how", "where"]

/-- `_apply_contextual_adjustments`: multiplicative adjustments from context,
history and text, capped at 1. -/
def apply_contextual_adjustments (base_score : ℚ) (text : Str) (context : Option Context)
    (user_history : Option History) : ℚ :=
  let adjusted := base_score
  let adjusted :=
    match context with
    | none => adjusted
    | some c =>
      let mood := c.mood_score.getD 5
      let adjusted :=
        if mood ≤ 2 then adjusted * 1.3
        else if mood ≤ 4 then adjusted * 1.1
        else adjusted
      if c.recent_mood_decline then adjusted * 1.2 else adjusted
  let adjusted :=
    match user_history with
    | none => adjusted
    | some h =>
      let adjusted := if 0 < h.previous_attempts then adjusted * 1.4 else adjusted
      if 2 < h.crisis_incidents_last_month then adjusted * 1.2 else adjusted
  let text_lower := pyLower text
  let adjusted :=
    if substance_keywords.any (fun kw => pyContains text_lower kw) then adjusted * 1.3
    else adjusted
  let adjusted :=
    if plan_keywords.any (fun kw => pyContains text_lower kw) then adjusted * 1.4
    else adjusted
  min adjusted 1

/-- The override category list of `_determine_risk_level`. -/
def imminent_categories : List Str :=
  strs ["imminent_danger_suicide_explicit", "imminent_danger_self_harm_immediate"]

/-- `_determine_risk_level`: the threshold table with the imminent-category
override. -/
def determine_risk_level (risk_score : ℚ) (indicators : List CrisisIndicator) : RiskLevel :=
  let has_imminent := indicators.any (fun i => decide (i.category ∈ imminent_categories))
  if has_imminent = true ∨ 0.95 ≤ risk_score then RiskLevel.IMMINENT
  else if 0.8 ≤ risk_score then RiskLevel.CRITICAL
  else if 0.6 ≤ risk_score then RiskLevel.HIGH
  else if 0.4 ≤ risk_score then RiskLevel.MEDIUM
  else if 0.2 ≤ risk_score then RiskLevel.LOW
  else RiskLevel.MINIMAL

/-- `_determine_intervention_type` (the `indicators` argument is accepted
but unused, as in the source). -/
def determine_intervention_type (risk_level : RiskLevel)
    (indicators : List CrisisIndicator) : InterventionType :=
  match risk_level with
  | RiskLevel.IMMINENT => InterventionType.IMMEDIATE_INTERVENTION
  | RiskLevel.CRITICAL => InterventionType.EMERGENCY_SERVICES
  | RiskLevel.HIGH => InterventionType.CRISIS_CONTACT
  | RiskLevel.MEDIUM => InterventionType.PROFESSIONAL_REFERRAL
  | RiskLevel.LOW => InterventionType.SELF_HELP
  | RiskLevel.MINIMAL => InterventionType.NONE

/-- `_generate_immediate_actions` (emoji prefixes of the source strings are
elided; the text content and list structure are kept). -/
def generate_immediate_actions (risk_level : RiskLevel)
    (indicators : List CrisisIndicator) : List Str :=
  match risk_level with
  | RiskLevel.IMMINENT =>
    strs ["IMMEDIATE ACTION REQUIRED",
      "Call 911 or emergency services NOW",
      "Go to the nearest emergency room immediately",
      "Call 988 (Suicide and Crisis Lifeline) - Available 24/7",
      "Contact a trusted person to stay with you",
      "Remove or secure any means of self-harm"]
  | RiskLevel.CRITICAL =>
    strs ["URGENT CRISIS SUPPORT NEEDED",
      "Call 988 (Suicide and Crisis Lifeline) immediately",
      "Text HOME to 741741 for Crisis Text Line",
      "Contact emergency contact or trusted person",
      "Consider going to emergency room",
      "Secure environment from harmful items"]
  | RiskLevel.HIGH =>
    strs ["Call 988 (Suicide and Crisis Lifeline)",
      "Text HOME to 741741 for immediate support",
      "Reach out to trusted friend, family, or counselor",
      "Review safety plan if you have one",
      "Consider emergency services if feelings intensify"]
  | RiskLevel.MEDIUM =>
    strs ["Contact mental health professional or counselor",
      "Call non-emergency crisis support line",
      "Reach out to trusted support person",
      "Use coping strategies you have learned",
      "Create or review safety plan"]
  | _ =>
    strs ["Practice self-care and stress management",
      "Stay connected with support network",
      "Monitor mood changes",
      "Consider professional support if needed"]

/-- `_recommend_resources` (the `intervention_type` argument is accepted but
unused, as in the source). -/
def recommend_resources (risk_level : RiskLevel)
    (intervention_type : InterventionType) : List Resource :=
  ([{ name := "National Suicide Prevention Lifeline".toList
      contact := "988".toList
      rtype := "phone".toList
      availability := "24/7".toList
      description := "Free confidential crisis support".toList },
    { name := "Crisis Text Line".toList
      contact := "Text HOME to 741741".toList
      rtype := "text".toList
      availability := "24/7".toList
      description := "Crisis counseling via text".toList }])
  ++ (if risk_level = RiskLevel.IMMINENT ∨ risk_level = RiskLevel.CRITICAL then
      [{ name := "Emergency Services".toList
         contact := "911".toList
         rtype := "emergency".toList
         availability := "24/7".toList
         description := "Immediate emergency response".toList },
       { name := "Emergency Room".toList
         contact := "Nearest hospital".toList
         rtype := "in_person".toList
         availability := "24/7".toList
         description := "Immediate medical and psychiatric care".toList }]
      else [])
  ++ (if risk_level = RiskLevel.HIGH ∨ risk_level = RiskLevel.MEDIUM then
      [{ name := "SAMHSA National Helpline".toList
         contact := "1-800-662-4357".toList
         rtype := "phone".toList
         availability := "24/7".toList
         description := "Mental health treatment referrals".toList },
       { name := "Crisis Chat".toList
         contact := "https://suicidepreventionlifeline.org/chat/".toList
         rtype := "online".toList
         availability := "24/7".toList
         description := "Online crisis chat support".toList }]
      else [])

/-- `_minimal_risk_assessment`: the well-formed minimal-risk result used for
empty input (and as the base of the error result). -/
def minimal_risk_assessment (clk : Clock) : CrisisAssessment :=
  { risk_level := RiskLevel.MINIMAL
    risk_score := 0
    intervention_type := InterventionType.NONE
    crisis_indicators := []
    protective_factors := []
    risk_factors := []
    immediate_actions := ["Continue monitoring mood and wellbeing".toList]
    resources_recommended := []
    assessment_metadata :=
      { processing_time_ms := 0
        text_length := 0
        indicators_found := 0
        protective_factors_count := none
        risk_factors_count := none
        assessment_method := "minimal_default".toList
        timestamp := clk.timestamp
        requires_human_review := none
        error := some ("Empty or invalid input".toList) } }

/-- `_error_assessment`: the minimal-risk result with the exception message
written over the metadata error field. -/
def error_assessment (clk : Clock) (error_msg : Str) : CrisisAssessment :=
  let result := minimal_risk_assessment clk
  { result with
    assessment_metadata := { result.assessment_metadata with error := some error_msg } }

/-- `assess_crisis_risk`, the single entry point.  The guard
`not text or not text.strip()` of the source is equivalent to the stripped
text being empty.  `exc = some msg` models an exception with message `msg`
raised anywhere inside the `try` block; the function is total, so it never
raises to its caller. -/
def assess_crisis_risk (clk : Clock) (exc : Option Str) (ai : Option AIResult)
    (text : Str) (context : Option Context) (user_history : Option History) :
    CrisisAssessment :=
  if pyStrip text = [] then minimal_risk_assessment clk
  else
    let text := pyStrip text
    match exc with
    | some e => error_assessment clk e
    | none =>
      let crisis_indicators := detect_crisis_indicators ai text
      let protective_found := detect_protective_factors text
      let risk_factors := identify_risk_factors clk text context user_history
      let base_risk_score := calculate_base_risk_score crisis_indicators
      let adjusted_risk_score :=
        apply_contextual_adjustments base_risk_score text context user_history
      let risk_level := determine_risk_level adjusted_risk_score crisis_indicators
      let intervention_type := determine_intervention_type risk_level crisis_indicators
      { risk_level := risk_level
        risk_score := adjusted_risk_score
        intervention_type := intervention_type
        crisis_indicators := crisis_indicators
        protective_factors := protective_found
        risk_factors := risk_factors
        immediate_actions := generate_immediate_actions risk_level crisis_indicators
        resources_recommended := recommend_resources risk_level intervention_type
        assessment_metadata :=
          { processing_time_ms := clk.processing_ms
            text_length := text.length
            indicators_found := crisis_indicators.length
            protective_factors_count := some protective_found.length
            risk_factors_count := some risk_factors.length
            assessment_method := "multi_layered_analysis".toList
            timestamp := clk.timestamp
            requires_human_review := some (decide (0.7 ≤ adjusted_risk_score))
            error := none } }

end CrisisModel

namespace CrisisModel

/-! Kernel-evaluable arithmetic: the Batteries rational operations are
sealed against unfolding by default; reopen them so that concrete
assessments can be settled by `decide`. -/

unseal Rat.add Rat.mul Rat.inv Rat.ofScientific Rat.sub

/-- Accumulators with pairwise distinct categories (the invariant of the
deduplication loop, used to characterise it for claim C10). -/
def CatDistinct (l : List CrisisIndicator) : Prop :=
  l.Pairwise (fun a b => a.category ≠ b.category)

/-- Intervention lookup table exactly as worded in the specification
(IMMINENT to immediate intervention, and so on), for the 1:1 refinement
comparison of claim C3 against `determine_intervention_type`. -/
def interventionLookupSpec : RiskLevel → InterventionType
  | RiskLevel.IMMINENT => InterventionType.IMMEDIATE_INTERVENTION
  | RiskLevel.CRITICAL => InterventionType.EMERGENCY_SERVICES
  | RiskLevel.HIGH => InterventionType.CRISIS_CONTACT
  | RiskLevel.MEDIUM => InterventionType.PROFESSIONAL_REFERRAL
  | RiskLevel.LOW => InterventionType.SELF_HELP
  | RiskLevel.MINIMAL => InterventionType.NONE

/-- Claim C3: the risk level follows the fixed threshold table, with the
imminent-category override, and the intervention type is exactly the 1:1
lookup of the risk level, so no assessment can pair a risk level with an
inconsistent intervention type. -/
theorem claim_c3_risk_table (s : ℚ) (inds : List CrisisIndicator) :
    ((determine_risk_level s inds = RiskLevel.IMMINENT) ↔
      (inds.any (fun i => decide (i.category ∈ imminent_categories)) = true ∨ 0.95 ≤ s)) ∧
    ((determine_risk_level s inds = RiskLevel.CRITICAL) ↔
      (inds.any (fun i => decide (i.category ∈ imminent_categories)) = false ∧ s < 0.95 ∧ 0.8 ≤ s)) ∧
    ((determine_risk_level s inds = RiskLevel.HIGH) ↔
      (inds.any (fun i => decide (i.category ∈ imminent_categories)) = false ∧ s < 0.8 ∧ 0.6 ≤ s)) ∧
    ((determine_risk_level s inds = RiskLevel.MEDIUM) ↔
      (inds.any (fun i => decide (i.category ∈ imminent_categories)) = false ∧ s < 0.6 ∧ 0.4 ≤ s)) ∧
    ((determine_risk_level s inds = RiskLevel.LOW) ↔
      (inds.any (fun i => decide (i.category ∈ imminent_categories)) = false ∧ s < 0.4 ∧ 0.2 ≤ s)) ∧
    ((determine_risk_level s inds = RiskLevel.MINIMAL) ↔
      (inds.any (fun i => decide (i.category ∈ imminent_categories)) = false ∧ s < 0.2)) ∧
    (∀ lvl : RiskLevel, determine_intervention_type lvl inds = interventionLookupSpec lvl) := by
  have hint : ∀ lvl : RiskLevel, determine_intervention_type lvl inds = interventionLookupSpec lvl := by
    intro lvl
    cases lvl <;> rfl
  rcases Bool.eq_false_or_eq_true
      (inds.any (fun i => decide (i.category ∈ imminent_categories))) with hb | hb <;>
    simp only [determine_risk_level, hb] <;>
    split_ifs with h1 h2 h3 h4 h5 <;>
    refine ⟨?_, ?_, ?_, ?_, ?_, ?_, hint⟩ <;>
    simp_all <;>
    first
      | rfl
      | linarith
      | (intros; linarith)

/-- Claim C4: with nonempty (non-whitespace) input, an exception raised
anywhere inside the detection/scoring block is caught at the top level and
converted into the minimal-risk error assessment that carries the message in
the metadata error field; `assess_crisis_risk` is a total function, so it
never raises to its caller. -/
theorem claim_c4_exception_safety (clk : Clock) (ai : Option AIResult)
    (context : Option Context) (user_history : Option History) (text : Str) (e : Str)
    (h : pyStrip text ≠ []) :
    assess_crisis_risk clk (some e) ai text context user_history = error_assessment clk e ∧
    (assess_crisis_risk clk (some e) ai text context user_history).risk_level
      = RiskLevel.MINIMAL ∧
    (assess_crisis_risk clk (some e) ai text context user_history).intervention_type
      = InterventionType.NONE ∧
    (assess_crisis_risk clk (some e) ai text context user_history).assessment_metadata.error
      = some e := by
  have hmain : assess_crisis_risk clk (some e) ai text context user_history
      = error_assessment clk e := by
    unfold assess_crisis_risk
    rw [if_neg h]
  exact ⟨hmain, by rw [hmain]; rfl, by rw [hmain]; rfl, by rw [hmain]; rfl⟩

/-- Witness for C4 at a concrete input. -/
theorem claim_c4_exception_safety_witness :
    pyStrip ("hurting".toList) ≠ [] ∧
    assess_crisis_risk ⟨12, [], 0⟩ (some ("boom".toList)) none ("hurting".toList) none none
      = error_assessment ⟨12, [], 0⟩ ("boom".toList) := by
  have h : pyStrip ("hurting".toList) ≠ [] := by decide
  exact ⟨h, (claim_c4_exception_safety ⟨12, [], 0⟩ none none none
    ("hurting".toList) ("boom".toList) h).1⟩

/-- Claim C5: for empty or whitespace-only input (exactly the texts whose
stripped form is empty, which is the source guard `not text or not
text.strip()`), the assessor short-circuits to the fixed minimal
assessment: minimal risk, no intervention, no indicators, and metadata
noting empty-or-invalid input. -/
theorem claim_c5_empty_input (clk : Clock) (exc : Option Str) (ai : Option AIResult)
    (context : Option Context) (user_history : Option History) (text : Str)
    (h : pyStrip text = []) :
    assess_crisis_risk clk exc ai text context user_history = minimal_risk_assessment clk ∧
    (assess_crisis_risk clk exc ai text context user_history).risk_level
      = RiskLevel.MINIMAL ∧
    (assess_crisis_risk clk exc ai text context user_history).intervention_type
      = InterventionType.NONE ∧
    (assess_crisis_risk clk exc ai text context user_history).crisis_indicators = [] ∧
    (assess_crisis_risk clk exc ai text context user_history).assessment_metadata.error
      = some ("Empty or invalid input".toList) ∧
    pyLower (((assess_crisis_risk clk exc ai text context
        user_history).assessment_metadata.error).getD [])
      = "empty or invalid input".toList := by
  have hmain : assess_crisis_risk clk exc ai text context user_history
      = minimal_risk_assessment clk := by
    unfold assess_crisis_risk
    rw [if_pos h]
  refine ⟨hmain, ?_, ?_, ?_, ?_, ?_⟩ <;> rw [hmain] <;> rfl

/-- Witness for C5 at a concrete whitespace-only input. -/
theorem claim_c5_empty_input_witness :
    pyStrip ("  ".toList) = [] ∧
    assess_crisis_risk ⟨12, [], 0⟩ none none ("  ".toList) none none
      = minimal_risk_assessment ⟨12, [], 0⟩ := by
  have h : pyStrip ("  ".toList) = [] := by decide
  exact ⟨h, (claim_c5_empty_input ⟨12, [], 0⟩ none none none none ("  ".toList) h).1⟩

/-- Claim C2 (evidence of a code bug): on the text from the specification
scenario, with no context and no user history, the code does not return a
minimal assessment with no indicators.  The word `today` matches the
temporal-urgency regex of severity 0.9, giving base score
0.9 + 0.05 * 1.5 = 0.975 and hence risk level IMMINENT with an
immediate-intervention recommendation, against both the specification
scenario and any sensible reading of the detector intent. -/
theorem claim_c2_feeling_okay_eval :
    (assess_crisis_risk ⟨12, [], 0⟩ none none ("Feeling okay today, just a bit tired".toList)
        none none).risk_level = RiskLevel.IMMINENT ∧
    (assess_crisis_risk ⟨12, [], 0⟩ none none ("Feeling okay today, just a bit tired".toList)
        none none).risk_score = 0.975 ∧
    (assess_crisis_risk ⟨12, [], 0⟩ none none ("Feeling okay today, just a bit tired".toList)
        none none).intervention_type = InterventionType.IMMEDIATE_INTERVENTION ∧
    (assess_crisis_risk ⟨12, [], 0⟩ none none ("Feeling okay today, just a bit tired".toList)
        none none).crisis_indicators.map (fun i => i.category)
      = ["temporal_urgency_immediate".toList] := by
  refine ⟨?_, ?_, ?_, ?_⟩ <;> decide

/-- Counterexample to claim C9 as stated: two calls with identical text,
context and user history do not always return identical assessments,
because `_identify_risk_factors` reads the wall clock; at hour 23 the
risk factors contain the late-night entry, at hour 12 they do not. -/
theorem claim_c9_counterexample :
    assess_crisis_risk ⟨23, [], 0⟩ none none ("hello".toList) none none ≠
    assess_crisis_risk ⟨12, [], 0⟩ none none ("hello".toList) none none := by
  decide

/-- Claim C9 (amended): the assessor keeps no mutable state between calls;
it is a deterministic function of text, context, user history and the wall
clock, and the clock can only influence `risk_factors` and
`assessment_metadata`.  All remaining fields (risk level, risk score,
intervention type, indicators, protective factors, immediate actions and
resources) agree between any two calls with identical text, context and
user history, whatever the two clock readings. -/
theorem claim_c9_deterministic_modulo_clock (clk clk' : Clock) (exc : Option Str)
    (ai : Option AIResult) (text : Str) (context : Option Context)
    (user_history : Option History) :
    (assess_crisis_risk clk exc ai text context user_history).risk_level
      = (assess_crisis_risk clk' exc ai text context user_history).risk_level ∧
    (assess_crisis_risk clk exc ai text context user_history).risk_score
      = (assess_crisis_risk clk' exc ai text context user_history).risk_score ∧
    (assess_crisis_risk clk exc ai text context user_history).intervention_type
      = (assess_crisis_risk clk' exc ai text context user_history).intervention_type ∧
    (assess_crisis_risk clk exc ai text context user_history).crisis_indicators
      = (assess_crisis_risk clk' exc ai text context user_history).crisis_indicators ∧
    (assess_crisis_risk clk exc ai text context user_history).protective_factors
      = (assess_crisis_risk clk' exc ai text context user_history).protective_factors ∧
    (assess_crisis_risk clk exc ai text context user_history).immediate_actions
      = (assess_crisis_risk clk' exc ai text context user_history).immediate_actions ∧
    (assess_crisis_risk clk exc ai text context user_history).resources_recommended
      = (assess_crisis_risk clk' exc ai text context user_history).resources_recommended := by
  by_cases h : pyStrip text = [] <;>
    unfold assess_crisis_risk <;>
    [simp only [if_pos h]; simp only [if_neg h]] <;>
    cases exc <;>
    exact ⟨rfl, rfl, rfl, rfl, rfl, rfl, rfl⟩

/-! Helper lemmas: substring containment survives stripping and lowering,
and category presence survives deduplication and sorting. -/

/-- An occurrence of a phrase that starts with a non-whitespace character
cannot begin inside an all-whitespace prefix. -/
lemma infix_of_append_ws_left {p b : Str}
    (hhead : ∃ c p', p = c :: p' ∧ isPySpace c = false) :
    ∀ a : Str, (∀ c ∈ a, isPySpace c = true) → p <:+: a ++ b → p <:+: b := by
  intro a
  induction a with
  | nil => intro _ h; simpa using h
  | cons x xs ih =>
    intro hws h
    rw [List.cons_append, List.infix_cons_iff] at h
    rcases h with h | h
    · obtain ⟨c, p', rfl, hc⟩ := hhead
      rw [List.cons_prefix_cons] at h
      have hx : isPySpace x = true := hws x (List.mem_cons_self x xs)
      rw [← h.1, hc] at hx
      simp at hx
    · exact ih (fun c hc => hws c (List.mem_cons_of_mem x hc)) h

/-- A phrase with non-whitespace first and last characters survives
`str.strip()` of its carrier. -/
lemma infix_pyStrip {p t : Str} (h : p <:+: t)
    (hhead : ∃ c p', p = c :: p' ∧ isPySpace c = false)
    (hlast : ∃ c p', p = p' ++ [c] ∧ isPySpace c = false) :
    p <:+: pyStrip t := by
  have h1 : p <:+: t.dropWhile isPySpace := by
    apply infix_of_append_ws_left hhead (t.takeWhile isPySpace)
    · intro c hc; exact List.mem_takeWhile_imp hc
    · rw [List.takeWhile_append_dropWhile]; exact h
  have h2 : p.reverse <:+: (t.dropWhile isPySpace).reverse := List.reverse_infix.mpr h1
  have hrevhead : ∃ c p', p.reverse = c :: p' ∧ isPySpace c = false := by
    obtain ⟨c, p', rfl, hc⟩ := hlast
    exact ⟨c, p'.reverse, by simp, hc⟩
  have h3 : p.reverse <:+: ((t.dropWhile isPySpace).reverse).dropWhile isPySpace := by
    apply infix_of_append_ws_left hrevhead
      (((t.dropWhile isPySpace).reverse).takeWhile isPySpace)
    · intro c hc; exact List.mem_takeWhile_imp hc
    · rw [List.takeWhile_append_dropWhile]; exact h2
  have h4 := List.reverse_infix.mpr h3
  unfold pyStrip
  simpa using h4

/-- Merging keeps the category of the retained indicator. -/
lemma mergeInd_category (e i : CrisisIndicator) : (mergeInd e i).category = e.category := rfl

/-- The conditional merge inside `dedupStep` never changes an element
category. -/
lemma dedup_map_category (i e : CrisisIndicator) :
    (if e.category = i.category then mergeInd e i else e).category = e.category := by
  split <;> rfl

/-- One dedup iteration preserves exactly the categories of the accumulator
plus the category of the incoming indicator. -/
lemma dedupStep_exists_cat {c : Str} {acc : List CrisisIndicator} {i : CrisisIndicator} :
    (∃ x ∈ dedupStep acc i, x.category = c) ↔
      (∃ x ∈ acc, x.category = c) ∨ i.category = c := by
  unfold dedupStep
  split
  next hdup =>
    rw [List.any_eq_true] at hdup
    obtain ⟨e0, he0, he0c⟩ := hdup
    rw [decide_eq_true_eq] at he0c
    constructor
    · rintro ⟨x, hx, hxc⟩
      rw [List.mem_map] at hx
      obtain ⟨e, he, rfl⟩ := hx
      exact Or.inl ⟨e, he, by rw [← dedup_map_category i e]; exact hxc⟩
    · rintro (⟨e, he, hc⟩ | hic)
      · exact ⟨_, List.mem_map_of_mem _ he, by rw [dedup_map_category]; exact hc⟩
      · exact ⟨_, List.mem_map_of_mem _ he0, by rw [dedup_map_category]; exact he0c.trans hic⟩
  next hdup =>
    constructor
    · rintro ⟨x, hx, hxc⟩
      rcases List.mem_append.mp hx with hx | hx
      · exact Or.inl ⟨x, hx, hxc⟩
      · simp only [List.mem_singleton] at hx
        subst hx
        exact Or.inr hxc
    · rintro (⟨x, hx, hxc⟩ | hic)
      · exact ⟨x, List.mem_append_left _ hx, hxc⟩
      · exact ⟨i, List.mem_append_right _ (by simp), hic⟩

/-- Category presence through the whole dedup fold. -/
lemma foldl_dedup_exists_cat {c : Str} (l : List CrisisIndicator) :
    ∀ acc, ((∃ x ∈ l.foldl dedupStep acc, x.category = c) ↔
      (∃ x ∈ acc, x.category = c) ∨ (∃ x ∈ l, x.category = c)) := by
  induction l with
  | nil => intro acc; simp
  | cons i l ih =>
    intro acc
    rw [List.foldl_cons, ih, dedupStep_exists_cat]
    constructor
    · rintro ((h | h) | h)
      · exact Or.inl h
      · exact Or.inr ⟨i, by simp, h⟩
      · obtain ⟨x, hx, hxc⟩ := h
        exact Or.inr ⟨x, by simp [hx], hxc⟩
    · rintro (h | ⟨x, hx, hxc⟩)
      · exact Or.inl (Or.inl h)
      · rcases List.mem_cons.mp hx with rfl | hx
        · exact Or.inl (Or.inr hxc)
        · exact Or.inr ⟨x, hx, hxc⟩

/-- Deduplication preserves exactly the set of categories present. -/
lemma dedup_exists_cat {c : Str} {l : List CrisisIndicator} :
    (∃ x ∈ deduplicate_indicators l, x.category = c) ↔ (∃ x ∈ l, x.category = c) := by
  unfold deduplicate_indicators
  rw [foldl_dedup_exists_cat]
  simp

/-- Sorting preserves every membership property (it is a permutation). -/
lemma sortIndicators_exists {P : CrisisIndicator → Prop} {l : List CrisisIndicator} :
    (∃ x ∈ sortIndicators l, P x) ↔ ∃ x ∈ l, P x := by
  unfold sortIndicators
  constructor <;> rintro ⟨x, hx, hPx⟩
  · exact ⟨x, (List.perm_insertionSort _ l).mem_iff.mp hx, hPx⟩
  · exact ⟨x, (List.perm_insertionSort _ l).mem_iff.mpr hx, hPx⟩

/-- A taxonomy leaf with at least one keyword occurrence emits its
indicator, whose category is the joined category-subcategory name. -/
lemma keyword_leaf_indicator_of_found {text c s : Str} {d : LeafData} {kw : Str}
    (hkw : kw ∈ d.keywords) (hin : pyContains text kw = true) :
    ∃ ind, keyword_leaf_indicator text c s d = some ind ∧ ind.category = c ++ '_' :: s := by
  unfold keyword_leaf_indicator
  have hfound : kw ∈ d.keywords.filter (fun kw => pyContains text kw) :=
    List.mem_filter.mpr ⟨hkw, hin⟩
  have hne : (d.keywords.filter (fun kw => pyContains text kw)).isEmpty = false := by
    cases hfil : d.keywords.filter (fun kw => pyContains text kw) with
    | nil => rw [hfil] at hfound; cases hfound
    | cons a l => rfl
  simp only [hne, Bool.false_eq_true, if_false]
  exact ⟨_, rfl, rfl⟩

/-- Claim C1: on the normal (non-exception) path, any input text containing
the phrase `going to kill myself tonight` is assessed at risk level
IMMINENT, whatever the clock, the AI collaborator reply, the context and
the user history: the phrase contains the `kill myself` keyword of the
`imminent_danger.suicide_explicit` leaf, whose category survives negation
dampening, deduplication and sorting, and the category match alone forces
the override regardless of the arithmetic risk score. -/
theorem claim_c1_imminent_override (clk : Clock) (ai : Option AIResult)
    (context : Option Context) (user_history : Option History) (text : Str)
    (h : ("going to kill myself tonight".toList) <:+: text) :
    (assess_crisis_risk clk none ai text context user_history).risk_level
      = RiskLevel.IMMINENT := by
  have hstrip : ("going to kill myself tonight".toList) <:+: pyStrip text :=
    infix_pyStrip h
      ⟨'g', "oing to kill myself tonight".toList, by decide, by decide⟩
      ⟨'t', "going to kill myself tonigh".toList, by decide, by decide⟩
  have hne : ¬(pyStrip text = []) := by
    intro he
    rw [he, List.infix_nil] at hstrip
    exact absurd hstrip (by decide)
  have hkill : ("kill myself".toList) <:+: pyLower (pyStrip text) := by
    have h1 : ("kill myself".toList) <:+: pyStrip text :=
      List.IsInfix.trans (by decide) hstrip
    have h2 := List.IsInfix.map Char.toLower h1
    have h3 : List.map Char.toLower ("kill myself".toList) = "kill myself".toList := by decide
    rw [h3] at h2
    exact h2
  obtain ⟨cs, hcs, sd, hsd, hcat, hkw⟩ : ∃ cs ∈ crisis_taxonomy, ∃ sd ∈ cs.2,
      cs.1 ++ '_' :: sd.1 = "imminent_danger_suicide_explicit".toList ∧
      ("kill myself".toList) ∈ sd.2.keywords := by decide
  have hin : pyContains (pyLower (pyStrip text)) ("kill myself".toList) = true := by
    unfold pyContains
    exact decide_eq_true hkill
  obtain ⟨ind, hsome, hindcat⟩ := keyword_leaf_indicator_of_found (c := cs.1) (s := sd.1) hkw hin
  have hmemkw : ind ∈ detect_keyword_indicators (pyLower (pyStrip text)) := by
    unfold detect_keyword_indicators
    rw [List.mem_flatMap]
    exact ⟨cs, hcs, List.mem_filterMap.mpr ⟨sd, hsd, hsome⟩⟩
  have hexists : ∃ x ∈ detect_crisis_indicators ai (pyStrip text),
      x.category = "imminent_danger_suicide_explicit".toList := by
    unfold detect_crisis_indicators
    rw [sortIndicators_exists, dedup_exists_cat]
    refine ⟨ind, ?_, by rw [hindcat, hcat]⟩
    exact List.mem_append_left _ (List.mem_append_left _ (List.mem_append_left _ hmemkw))
  have hany : (detect_crisis_indicators ai (pyStrip text)).any
      (fun i => decide (i.category ∈ imminent_categories)) = true := by
    rw [List.any_eq_true]
    obtain ⟨x, hx, hxc⟩ := hexists
    exact ⟨x, hx, by rw [decide_eq_true_eq, hxc]; decide⟩
  unfold assess_crisis_risk
  rw [if_neg hne]
  show (determine_risk_level _ (detect_crisis_indicators ai (pyStrip text))) = _
  unfold determine_risk_level
  simp [hany]

/-- Witness for C1 at a concrete input. -/
theorem claim_c1_imminent_override_witness :
    ("going to kill myself tonight".toList) <:+:
      ("I think I am going to kill myself tonight".toList) ∧
    (assess_crisis_risk ⟨12, [], 0⟩ none none
        ("I think I am going to kill myself tonight".toList) none none).risk_level
      = RiskLevel.IMMINENT := by
  have h : ("going to kill myself tonight".toList) <:+:
      ("I think I am going to kill myself tonight".toList) := by decide
  exact ⟨h, claim_c1_imminent_override ⟨12, [], 0⟩ none none none
    ("I think I am going to kill myself tonight".toList) h⟩

/-! Characterisation of the deduplication merge, for claim C10. -/

/-- Folding merges keeps the retained category. -/
lemma foldl_mergeInd_category (ds : List CrisisIndicator) :
    ∀ x : CrisisIndicator, (ds.foldl mergeInd x).category = x.category := by
  induction ds with
  | nil => intro x; rfl
  | cons d ds ih => intro x; rw [List.foldl_cons, ih]; rfl

/-- Folding merges keeps the retained context. -/
lemma foldl_mergeInd_context (ds : List CrisisIndicator) :
    ∀ x : CrisisIndicator, (ds.foldl mergeInd x).context = x.context := by
  induction ds with
  | nil => intro x; rfl
  | cons d ds ih => intro x; rw [List.foldl_cons, ih]; rfl

/-- Folding merges keeps the retained urgency level. -/
lemma foldl_mergeInd_urgency (ds : List CrisisIndicator) :
    ∀ x : CrisisIndicator, (ds.foldl mergeInd x).urgency_level = x.urgency_level := by
  induction ds with
  | nil => intro x; rfl
  | cons d ds ih => intro x; rw [List.foldl_cons, ih]; rfl

/-- Folding merges takes the running maximum of severities. -/
lemma foldl_mergeInd_severity (ds : List CrisisIndicator) :
    ∀ x : CrisisIndicator,
      (ds.foldl mergeInd x).severity
        = (ds.map (fun d => d.severity)).foldl max x.severity := by
  induction ds with
  | nil => intro x; rfl
  | cons d ds ih =>
    intro x
    simp only [List.foldl_cons, List.map_cons]
    rw [ih]
    rfl

/-- Folding merges takes the running maximum of confidences. -/
lemma foldl_mergeInd_confidence (ds : List CrisisIndicator) :
    ∀ x : CrisisIndicator,
      (ds.foldl mergeInd x).confidence
        = (ds.map (fun d => d.confidence)).foldl max x.confidence := by
  induction ds with
  | nil => intro x; rfl
  | cons d ds ih =>
    intro x
    simp only [List.foldl_cons, List.map_cons]
    rw [ih]
    rfl

/-- Folding merges concatenates the keyword lists in encounter order. -/
lemma foldl_mergeInd_keywords (ds : List CrisisIndicator) :
    ∀ x : CrisisIndicator,
      (ds.foldl mergeInd x).keywords_found
        = x.keywords_found ++ (ds.map (fun d => d.keywords_found)).flatten := by
  induction ds with
  | nil => intro x; simp
  | cons d ds ih =>
    intro x
    simp only [List.foldl_cons, List.map_cons, List.flatten_cons]
    rw [ih]
    simp [mergeInd, List.append_assoc]

/-- One dedup step keeps the distinct-categories invariant. -/
lemma dedupStep_catDistinct {acc : List CrisisIndicator} {i : CrisisIndicator}
    (h : CatDistinct acc) : CatDistinct (dedupStep acc i) := by
  unfold dedupStep
  split
  next =>
    refine List.Pairwise.map _ ?_ h
    intro a b hab
    rw [dedup_map_category, dedup_map_category]
    exact hab
  next hdup =>
    rw [Bool.not_eq_true, List.any_eq_false] at hdup
    unfold CatDistinct
    rw [List.pairwise_append]
    refine ⟨h, by simp, ?_⟩
    intro a ha b hb
    rw [List.mem_singleton] at hb
    subst hb
    have := hdup a ha
    simpa using this

/-- An element of the accumulator evolves through the dedup fold into the
merge of itself with all later duplicates of its category. -/
lemma foldl_dedupStep_mem (l : List CrisisIndicator) :
    ∀ acc e, e ∈ acc → CatDistinct acc →
      ((l.filter (fun x => decide (x.category = e.category))).foldl mergeInd e)
        ∈ l.foldl dedupStep acc := by
  induction l with
  | nil =>
    intro acc e he _
    simpa using he
  | cons i l ih =>
    intro acc e he hpw
    rw [List.foldl_cons]
    have hpw' : CatDistinct (dedupStep acc i) := dedupStep_catDistinct hpw
    by_cases hcat : i.category = e.category
    · have hdup : acc.any (fun a => decide (a.category = i.category)) = true := by
        rw [List.any_eq_true]
        exact ⟨e, he, by rw [decide_eq_true_eq, hcat]⟩
      have hstep : dedupStep acc i
          = acc.map (fun a => if a.category = i.category then mergeInd a i else a) := by
        unfold dedupStep
        rw [if_pos hdup]
      have hmem : (if e.category = i.category then mergeInd e i else e)
          ∈ acc.map (fun a => if a.category = i.category then mergeInd a i else a) :=
        List.mem_map_of_mem _ he
      rw [if_pos hcat.symm] at hmem
      have hfil : (i :: l).filter (fun x => decide (x.category = e.category))
          = i :: l.filter (fun x => decide (x.category = e.category)) :=
        List.filter_cons_of_pos (by rw [decide_eq_true_eq]; exact hcat)
      rw [hfil, List.foldl_cons, hstep]
      have := ih (dedupStep acc i) (mergeInd e i) (by rw [hstep]; exact hmem) hpw'
      rw [hstep] at this
      simpa [mergeInd_category] using this
    · have hfil : (i :: l).filter (fun x => decide (x.category = e.category))
          = l.filter (fun x => decide (x.category = e.category)) :=
        List.filter_cons_of_neg (by rw [decide_eq_true_eq]; exact hcat)
      rw [hfil]
      cases hdup : acc.any (fun a => decide (a.category = i.category)) with
      | true =>
        have hstep : dedupStep acc i
            = acc.map (fun a => if a.category = i.category then mergeInd a i else a) := by
          unfold dedupStep
          rw [if_pos hdup]
        have hmem : (if e.category = i.category then mergeInd e i else e)
            ∈ acc.map (fun a => if a.category = i.category then mergeInd a i else a) :=
          List.mem_map_of_mem _ he
        rw [if_neg (fun hh => hcat hh.symm)] at hmem
        have := ih (dedupStep acc i) e (by rw [hstep]; exact hmem) hpw'
        exact this
      | false =>
        have hstep : dedupStep acc i = acc ++ [i] := by
          unfold dedupStep
          rw [if_neg (by rw [hdup]; simp)]
        have := ih (dedupStep acc i) e (by rw [hstep]; exact List.mem_append_left _ he) hpw'
        exact this

/-- The whole dedup fold keeps the distinct-categories invariant. -/
lemma foldl_dedupStep_catDistinct (l : List CrisisIndicator) :
    ∀ acc, CatDistinct acc → CatDistinct (l.foldl dedupStep acc) := by
  induction l with
  | nil => intro acc h; exact h
  | cons i l ih =>
    intro acc h
    rw [List.foldl_cons]
    exact ih _ (dedupStep_catDistinct h)

/-- Claim C10: when deduplication merges indicators sharing a category,
the retained indicator keeps the category, context and urgency level of the
first-detected duplicate (so a later duplicate with higher urgency can
neither raise the merged urgency level nor its urgency multiplier), while
severity and confidence become the maxima over the duplicates and the
keyword lists are concatenated in encounter order. -/
theorem claim_c10_dedup_frame (l₁ l₂ : List CrisisIndicator) (x : CrisisIndicator)
    (hfirst : ∀ y ∈ l₁, y.category ≠ x.category) :
    ∃ ind ∈ deduplicate_indicators (l₁ ++ x :: l₂),
      ind.category = x.category ∧
      ind.context = x.context ∧
      ind.urgency_level = x.urgency_level ∧
      urgency_to_multiplier ind.urgency_level = urgency_to_multiplier x.urgency_level ∧
      ind.severity = ((l₂.filter (fun y => decide (y.category = x.category))).map
        (fun y => y.severity)).foldl max x.severity ∧
      ind.confidence = ((l₂.filter (fun y => decide (y.category = x.category))).map
        (fun y => y.confidence)).foldl max x.confidence ∧
      ind.keywords_found = x.keywords_found
        ++ ((l₂.filter (fun y => decide (y.category = x.category))).map
          (fun y => y.keywords_found)).flatten := by
  unfold deduplicate_indicators
  rw [List.foldl_append]
  have hnone : ∀ a ∈ (l₁.foldl dedupStep []), a.category ≠ x.category := by
    intro a ha hac
    have h2 : ∃ y ∈ l₁.foldl dedupStep [], y.category = x.category := ⟨a, ha, hac⟩
    have h3 := (foldl_dedup_exists_cat l₁ []).mp h2
    simp only [List.not_mem_nil, false_and, exists_false, false_or] at h3
    obtain ⟨y, hy, hyc⟩ := h3
    exact hfirst y hy hyc
  have hpw : CatDistinct (l₁.foldl dedupStep []) :=
    foldl_dedupStep_catDistinct l₁ [] (by exact List.Pairwise.nil)
  rw [List.foldl_cons]
  have hstep : dedupStep (l₁.foldl dedupStep []) x = (l₁.foldl dedupStep []) ++ [x] := by
    unfold dedupStep
    rw [if_neg ?hcond]
    case hcond =>
      intro hany
      rw [List.any_eq_true] at hany
      obtain ⟨a, ha, hac⟩ := hany
      rw [decide_eq_true_eq] at hac
      exact hnone a ha hac
  rw [hstep]
  have hpw' : CatDistinct ((l₁.foldl dedupStep []) ++ [x]) := by
    rw [← hstep]
    exact dedupStep_catDistinct hpw
  have hmm := foldl_dedupStep_mem l₂ ((l₁.foldl dedupStep []) ++ [x]) x
    (List.mem_append_right _ (by simp)) hpw'
  refine ⟨_, hmm, foldl_mergeInd_category _ x, foldl_mergeInd_context _ x,
    foldl_mergeInd_urgency _ x, by rw [foldl_mergeInd_urgency],
    foldl_mergeInd_severity _ x, foldl_mergeInd_confidence _ x,
    foldl_mergeInd_keywords _ x⟩

/-- Witness for C10: a concrete pair of duplicates where the later one has
higher severity, confidence and urgency; the merged indicator keeps the
first context and urgency (`medium`, multiplier 1.1, not `immediate`)
while severity and confidence rise to the maxima. -/
theorem claim_c10_dedup_frame_witness :
    deduplicate_indicators
        [⟨"c".toList, 0.5, ["a".toList], "ctx1".toList, 0.6, "medium".toList⟩,
         ⟨"c".toList, 0.9, ["b".toList], "ctx2".toList, 0.9, "immediate".toList⟩]
      = [⟨"c".toList, 0.9, ["a".toList, "b".toList], "ctx1".toList, 0.9, "medium".toList⟩] ∧
    (∃ ind ∈ deduplicate_indicators
        ([] ++ (⟨"c".toList, 0.5, ["a".toList], "ctx1".toList, 0.6, "medium".toList⟩ :
            CrisisIndicator) ::
          [⟨"c".toList, 0.9, ["b".toList], "ctx2".toList, 0.9, "immediate".toList⟩]),
      ind.category = "c".toList ∧
      ind.context = "ctx1".toList ∧
      ind.urgency_level = "medium".toList ∧
      urgency_to_multiplier ind.urgency_level = urgency_to_multiplier ("medium".toList) ∧
      ind.severity = (([(⟨"c".toList, 0.9, ["b".toList], "ctx2".toList, 0.9,
          "immediate".toList⟩ : CrisisIndicator)].filter
            (fun y => decide (y.category = "c".toList))).map (fun y => y.severity)).foldl
          max 0.5 ∧
      ind.confidence = (([(⟨"c".toList, 0.9, ["b".toList], "ctx2".toList, 0.9,
          "immediate".toList⟩ : CrisisIndicator)].filter
            (fun y => decide (y.category = "c".toList))).map (fun y => y.confidence)).foldl
          max 0.6 ∧
      ind.keywords_found = ["a".toList]
        ++ (([(⟨"c".toList, 0.9, ["b".toList], "ctx2".toList, 0.9,
            "immediate".toList⟩ : CrisisIndicator)].filter
              (fun y => decide (y.category = "c".toList))).map
            (fun y => y.keywords_found)).flatten) := by
  constructor
  · decide
  · exact claim_c10_dedup_frame []
      [⟨"c".toList, 0.9, ["b".toList], "ctx2".toList, 0.9, "immediate".toList⟩]
      ⟨"c".toList, 0.5, ["a".toList], "ctx1".toList, 0.6, "medium".toList⟩
      (by intro y hy; cases hy)

/-! Nonnegativity of every generated indicator and the score bounds, for
claim C6. -/

/-- Every urgency multiplier is at least 1. -/
lemma urgency_to_multiplier_ge_one (u : Str) : (1 : ℚ) ≤ urgency_to_multiplier u := by
  unfold urgency_to_multiplier
  split_ifs <;> norm_num

/-- Temporal severities are nonnegative. -/
lemma temporal_severity_nonneg (u : Str) : 0 ≤ temporal_severity u := by
  unfold temporal_severity
  split_ifs <;> norm_num

/-- Keyword confidences are nonnegative. -/
lemma calculate_keyword_confidence_nonneg (t : Str) (f a : List Str) :
    0 ≤ calculate_keyword_confidence t f a := by
  unfold calculate_keyword_confidence
  have h0 : (0 : ℚ) ≤ min ((f.length : ℚ) / (a.length : ℚ)) 1 := by
    apply le_min
    · positivity
    · norm_num
  have h1 : (0 : ℚ) ≤ (if 1 < f.length then min ((f.length : ℚ) / (a.length : ℚ)) 1 * 1.2
      else min ((f.length : ℚ) / (a.length : ℚ)) 1) := by
    split_ifs
    · linarith
    · exact h0
  have h2 : ∀ (ks : List Str) (b : ℚ), 0 ≤ b →
      0 ≤ ks.foldl (fun b kw => if 1 < (pySplitWs kw).length then b * 1.1 else b) b := by
    intro ks
    induction ks with
    | nil => intro b hb; exact hb
    | cons k ks ih =>
      intro b hb
      rw [List.foldl_cons]
      apply ih
      split_ifs
      · linarith
      · exact hb
  exact le_min (h2 f _ h1) (by norm_num)

/-- Every taxonomy leaf carries a nonnegative severity. -/
lemma taxonomy_severity_nonneg :
    ∀ cs ∈ crisis_taxonomy, ∀ sd ∈ cs.2, 0 ≤ sd.2.severity := by decide

/-- Keyword indicators have nonnegative severity and confidence. -/
lemma detect_keyword_nonneg (t : Str) :
    ∀ ind ∈ detect_keyword_indicators t, 0 ≤ ind.severity ∧ 0 ≤ ind.confidence := by
  intro ind hmem
  unfold detect_keyword_indicators at hmem
  rw [List.mem_flatMap] at hmem
  obtain ⟨cs, hcs, h2⟩ := hmem
  rw [List.mem_filterMap] at h2
  obtain ⟨sd, hsd, hsome⟩ := h2
  have hsev := taxonomy_severity_nonneg cs hcs sd hsd
  unfold keyword_leaf_indicator at hsome
  dsimp only at hsome
  split at hsome
  · cases hsome
  · rw [Option.some.injEq] at hsome
    subst hsome
    constructor
    · show 0 ≤ (if check_negation_context t _ = true then sd.2.severity * 0.5 else sd.2.severity)
      split_ifs
      · linarith
      · exact hsev
    · show 0 ≤ (if check_negation_context t _ = true
          then calculate_keyword_confidence t _ sd.2.keywords * 0.3
          else calculate_keyword_confidence t _ sd.2.keywords)
      have := calculate_keyword_confidence_nonneg t
        (sd.2.keywords.filter (fun kw => pyContains t kw)) sd.2.keywords
      split_ifs
      · linarith
      · exact this

/-- Pattern indicators have nonnegative severity and confidence. -/
lemma detect_pattern_nonneg (t : Str) :
    ∀ ind ∈ detect_pattern_indicators t, 0 ≤ ind.severity ∧ 0 ≤ ind.confidence := by
  intro ind hmem
  unfold detect_pattern_indicators at hmem
  rcases List.mem_append.mp hmem with hmem | hmem
  · rcases List.mem_append.mp hmem with hmem | hmem
    · rw [List.mem_flatMap] at hmem
      obtain ⟨up, _, h2⟩ := hmem
      split at h2
      · rw [List.mem_singleton] at h2
        subst h2
        exact ⟨temporal_severity_nonneg up.1, by norm_num⟩
      · cases h2
    · rw [List.mem_flatMap] at hmem
      obtain ⟨np, _, h2⟩ := hmem
      dsimp only at h2
      split at h2
      · cases h2
      · rw [List.mem_singleton] at h2
        subst h2
        refine ⟨?_, by norm_num⟩
        show 0 ≤ (if np.1 = "specific_method".toList then (0.8 : ℚ) else 0.7)
        split_ifs <;> norm_num
  · rw [List.mem_flatMap] at hmem
    obtain ⟨ip, _, h2⟩ := hmem
    split at h2
    · rw [List.mem_singleton] at h2
      subst h2
      exact ⟨by norm_num, by norm_num⟩
    · cases h2

/-- Contextual indicators have nonnegative severity and confidence. -/
lemma detect_contextual_nonneg (t : Str) :
    ∀ ind ∈ detect_contextual_indicators t, 0 ≤ ind.severity ∧ 0 ≤ ind.confidence := by
  intro ind hmem
  unfold detect_contextual_indicators at hmem
  dsimp only at hmem
  rcases List.mem_append.mp hmem with hmem | hmem
  · rcases List.mem_append.mp hmem with hmem | hmem
    · split at hmem
      · cases hmem
      · rw [List.mem_singleton] at hmem
        subst hmem
        exact ⟨by norm_num, by norm_num⟩
    · split at hmem
      · cases hmem
      · rw [List.mem_singleton] at hmem
        subst hmem
        exact ⟨by norm_num, by norm_num⟩
  · split at hmem
    · cases hmem
    · rw [List.mem_singleton] at hmem
      subst hmem
      exact ⟨by norm_num, by norm_num⟩

/-- AI indicators have nonnegative severity and confidence (the 0.3 gate). -/
lemma detect_ai_nonneg (ai : Option AIResult) :
    ∀ ind ∈ detect_ai_indicators ai, 0 ≤ ind.severity ∧ 0 ≤ ind.confidence := by
  intro ind hmem
  cases ai with
  | none =>
    simp only [detect_ai_indicators] at hmem
    cases hmem
  | some r =>
    simp only [detect_ai_indicators] at hmem
    split at hmem
    next hgate =>
      rw [List.mem_singleton] at hmem
      subst hmem
      exact ⟨by linarith, by norm_num⟩
    next => cases hmem

/-- Merging preserves any property closed under taking maxima of severity
and confidence; used with nonnegativity. -/
lemma foldl_dedupStep_preserve {P : CrisisIndicator → Prop}
    (hP : ∀ e i, P e → P i → P (mergeInd e i)) (l : List CrisisIndicator) :
    ∀ acc, (∀ x ∈ acc, P x) → (∀ x ∈ l, P x) → ∀ x ∈ l.foldl dedupStep acc, P x := by
  induction l with
  | nil => intro acc ha _ x hx; exact ha x hx
  | cons i l ih =>
    intro acc ha hl x hx
    rw [List.foldl_cons] at hx
    refine ih (dedupStep acc i) ?_ (fun y hy => hl y (List.mem_cons_of_mem _ hy)) x hx
    intro y hy
    unfold dedupStep at hy
    split at hy
    · rw [List.mem_map] at hy
      obtain ⟨e, he, rfl⟩ := hy
      split_ifs
      · exact hP e i (ha e he) (hl i (List.mem_cons_self i l))
      · exact ha e he
    · rcases List.mem_append.mp hy with h | h
      · exact ha _ h
      · rw [List.mem_singleton] at h
        subst h
        exact hl _ (List.mem_cons_self _ _)

/-- All indicators returned by the full detection pass have nonnegative
severity and confidence. -/
lemma detect_crisis_nonneg (ai : Option AIResult) (t : Str) :
    ∀ ind ∈ detect_crisis_indicators ai t, 0 ≤ ind.severity ∧ 0 ≤ ind.confidence := by
  intro ind hind
  unfold detect_crisis_indicators at hind
  unfold sortIndicators at hind
  have hded := (List.perm_insertionSort _ _).mem_iff.mp hind
  refine @foldl_dedupStep_preserve (fun j => 0 ≤ j.severity ∧ 0 ≤ j.confidence)
    (fun e j he hj => ⟨le_trans he.1 (le_max_left _ _), le_trans he.2 (le_max_left _ _)⟩)
    _ [] (by intro x hx; cases hx) ?_ ind hded
  intro x hx
  rcases List.mem_append.mp hx with hx | hx
  · rcases List.mem_append.mp hx with hx | hx
    · rcases List.mem_append.mp hx with hx | hx
      · exact detect_keyword_nonneg _ x hx
      · exact detect_pattern_nonneg _ x hx
    · exact detect_contextual_nonneg _ x hx
  · exact detect_ai_nonneg ai x hx

/-- Rounding to three decimals is monotone. -/
lemma round3_mono {x y : ℚ} (h : x ≤ y) : round3 x ≤ round3 y := by
  unfold round3
  have h1 : round (x * 1000) ≤ round (y * 1000) := by
    rw [round_eq, round_eq]
    exact Int.floor_le_floor (by linarith)
  have h2 : ((round (x * 1000) : ℤ) : ℚ) ≤ ((round (y * 1000) : ℤ) : ℚ) := by
    exact_mod_cast h1
  linarith

/-- Rounding fixes zero. -/
lemma round3_zero : round3 0 = 0 := by decide

/-- Rounding fixes one. -/
lemma round3_one : round3 1 = 1 := by decide

/-- A list maximum dominates its seed. -/
lemma le_foldl_max (l : List ℚ) : ∀ b : ℚ, b ≤ l.foldl max b := by
  induction l with
  | nil => intro b; exact le_refl b
  | cons x l ih =>
    intro b
    rw [List.foldl_cons]
    exact le_trans (le_max_left b x) (ih _)

/-- The base risk score lies in the unit interval whenever all indicator
severities and confidences are nonnegative. -/
lemma calculate_base_risk_score_bounds (inds : List CrisisIndicator)
    (h : ∀ i ∈ inds, 0 ≤ i.severity ∧ 0 ≤ i.confidence) :
    0 ≤ calculate_base_risk_score inds ∧ calculate_base_risk_score inds ≤ 1 := by
  unfold calculate_base_risk_score
  by_cases he : inds.isEmpty = true
  · rw [if_pos he]
    norm_num
  · rw [if_neg he]
    dsimp only
    by_cases hw : (inds.map (fun i => i.confidence)).sum = 0
    · rw [if_pos hw]
      norm_num
    · rw [if_neg hw]
      have htws : 0 ≤ (inds.map (fun i => i.severity * i.confidence)).sum := by
        apply List.sum_nonneg
        intro q hq
        rw [List.mem_map] at hq
        obtain ⟨j, hj, rfl⟩ := hq
        exact mul_nonneg (h j hj).1 (h j hj).2
      have htw : 0 ≤ (inds.map (fun i => i.confidence)).sum := by
        apply List.sum_nonneg
        intro q hq
        rw [List.mem_map] at hq
        obtain ⟨j, hj, rfl⟩ := hq
        exact (h j hj).2
      have htwpos : 0 < (inds.map (fun i => i.confidence)).sum :=
        lt_of_le_of_ne htw (fun hh => hw hh.symm)
      have hbase : 0 ≤ (inds.map (fun i => i.severity * i.confidence)).sum
          / (inds.map (fun i => i.confidence)).sum := div_nonneg htws htw
      have hbonus : 0 ≤ min ((inds.length : ℚ) * 0.05) 0.2 := by
        apply le_min
        · positivity
        · norm_num
      have hurg : 0 ≤ maxQ (inds.map (fun i => urgency_to_multiplier i.urgency_level)) := by
        cases hinds : inds with
        | nil => rw [hinds] at he; cases he rfl
        | cons a l =>
          show (0 : ℚ) ≤ maxQ (urgency_to_multiplier a.urgency_level
            :: l.map (fun i => urgency_to_multiplier i.urgency_level))
          unfold maxQ
          calc (0 : ℚ) ≤ 1 := by norm_num
            _ ≤ urgency_to_multiplier a.urgency_level := urgency_to_multiplier_ge_one _
            _ ≤ _ := le_foldl_max _ _
      constructor
      · have h0 : (0 : ℚ) ≤ min ((inds.map (fun i => i.severity * i.confidence)).sum
            / (inds.map (fun i => i.confidence)).sum
            + min ((inds.length : ℚ) * 0.05) 0.2
              * maxQ (inds.map (fun i => urgency_to_multiplier i.urgency_level))) 1 :=
          le_min (by nlinarith) (by norm_num)
        calc (0 : ℚ) = round3 0 := round3_zero.symm
          _ ≤ _ := round3_mono h0
      · have h1 : min ((inds.map (fun i => i.severity * i.confidence)).sum
            / (inds.map (fun i => i.confidence)).sum
            + min ((inds.length : ℚ) * 0.05) 0.2
              * maxQ (inds.map (fun i => urgency_to_multiplier i.urgency_level))) 1 ≤ 1 :=
          min_le_right _ _
        calc round3 _ ≤ round3 1 := round3_mono h1
          _ = 1 := round3_one

set_option maxHeartbeats 1600000 in
/-- Contextual adjustments keep a nonnegative score inside the unit
interval. -/
lemma apply_contextual_adjustments_bounds (b : ℚ) (t : Str) (c : Option Context)
    (uh : Option History) (hb : 0 ≤ b) :
    0 ≤ apply_contextual_adjustments b t c uh ∧
      apply_contextual_adjustments b t c uh ≤ 1 := by
  unfold apply_contextual_adjustments
  rcases c with _ | cc <;> rcases uh with _ | hh <;>
    dsimp only <;>
    split_ifs <;>
    exact ⟨le_min (by linarith) (by norm_num), min_le_right _ _⟩

/-- Claim C6: for every input (text, context, user history), every clock,
every AI collaborator reply and also on the exception path, the returned
risk score satisfies 0 <= risk_score <= 1. -/
theorem claim_c6_score_bounds (clk : Clock) (exc : Option Str) (ai : Option AIResult)
    (text : Str) (context : Option Context) (user_history : Option History) :
    0 ≤ (assess_crisis_risk clk exc ai text context user_history).risk_score ∧
    (assess_crisis_risk clk exc ai text context user_history).risk_score ≤ 1 := by
  unfold assess_crisis_risk
  split_ifs with h
  · constructor <;> norm_num [minimal_risk_assessment]
  · cases exc with
    | some e =>
      constructor <;> norm_num [error_assessment, minimal_risk_assessment]
    | none =>
      exact apply_contextual_adjustments_bounds
        (calculate_base_risk_score (detect_crisis_indicators ai (pyStrip text)))
        (pyStrip text) context user_history
        (calculate_base_risk_score_bounds _ (detect_crisis_nonneg ai (pyStrip text))).1

/-- Counterexample to claim C7 as stated: the word `suicidal` does not
contain the keyword `suicide` as a substring, so neither "I am suicidal"
nor "I am not suicidal" matches any taxonomy keyword; both assessments
return no indicator at all, and no suicide indicator with strictly lower
severity or confidence exists for the negated text. -/
theorem claim_c7_counterexample :
    (assess_crisis_risk ⟨12, [], 0⟩ none none ("I am suicidal".toList) none
        none).crisis_indicators = [] ∧
    (assess_crisis_risk ⟨12, [], 0⟩ none none ("I am not suicidal".toList) none
        none).crisis_indicators = [] ∧
    pyContains (pyLower ("I am suicidal".toList)) ("suicide".toList) = false := by
  refine ⟨?_, ?_, ?_⟩ <;> decide

/-- Claim C7 (amended): negation dampening.  In general, whenever a
taxonomy leaf matches and the negation scan fires (a negation token occurs
as a substring of the 20 characters before the first occurrence of a
matched keyword), the emitted indicator carries exactly 0.5 times the leaf
severity and 0.3 times the computed keyword confidence.  Concretely, on the
corrected pair of texts, "I am not going to kill myself" produces strictly
lower severity and strictly lower confidence for the
`imminent_danger_suicide_explicit` indicator than "I am going to kill
myself", with exact ratios 0.5 and 0.3. -/
theorem claim_c7_negation_dampening :
    (∀ (text category subcategory : Str) (d : LeafData) (ind : CrisisIndicator),
      keyword_leaf_indicator text category subcategory d = some ind →
      check_negation_context text (d.keywords.filter (fun kw => pyContains text kw)) = true →
      ind.severity = d.severity * 0.5 ∧
      ind.confidence = calculate_keyword_confidence text
        (d.keywords.filter (fun kw => pyContains text kw)) d.keywords * 0.3) ∧
    (∃ ipos ∈ (assess_crisis_risk ⟨12, [], 0⟩ none none
        ("I am going to kill myself".toList) none none).crisis_indicators,
     ∃ ineg ∈ (assess_crisis_risk ⟨12, [], 0⟩ none none
        ("I am not going to kill myself".toList) none none).crisis_indicators,
      ipos.category = "imminent_danger_suicide_explicit".toList ∧
      ineg.category = "imminent_danger_suicide_explicit".toList ∧
      ineg.severity = ipos.severity * 0.5 ∧
      ineg.confidence = ipos.confidence * 0.3 ∧
      ineg.severity < ipos.severity ∧
      ineg.confidence < ipos.confidence) := by
  constructor
  · intro text c s d ind hsome hneg
    unfold keyword_leaf_indicator at hsome
    dsimp only at hsome
    rw [hneg] at hsome
    simp only [eq_self_iff_true, if_true] at hsome
    split at hsome
    · cases hsome
    · rw [Option.some.injEq] at hsome
      subst hsome
      exact ⟨rfl, rfl⟩
  · decide

/-- Witness for the general half of C7, at a one-keyword leaf on the text
`not suicide` (keyword matched at position 4, the window before it contains
the token `not`). -/
theorem claim_c7_negation_dampening_witness :
    keyword_leaf_indicator ("not suicide".toList) ("a".toList) ("b".toList)
        ⟨["suicide".toList], 0.8, "high".toList, InterventionType.CRISIS_CONTACT⟩
      = some ⟨"a_b".toList, 0.4, ["suicide".toList], "not suicide".toList, 0.3,
          "high".toList⟩ ∧
    check_negation_context ("not suicide".toList)
        ((["suicide".toList] : List Str).filter
          (fun kw => pyContains ("not suicide".toList) kw)) = true ∧
    ((0.4 : ℚ) = 0.8 * 0.5 ∧
     (0.3 : ℚ) = calculate_keyword_confidence ("not suicide".toList)
        ((["suicide".toList] : List Str).filter
          (fun kw => pyContains ("not suicide".toList) kw)) [("suicide".toList)] * 0.3) := by
  refine ⟨by decide, by decide, ?_⟩
  exact (claim_c7_negation_dampening).1 ("not suicide".toList) ("a".toList) ("b".toList)
    ⟨["suicide".toList], 0.8, "high".toList, InterventionType.CRISIS_CONTACT⟩
    ⟨"a_b".toList, 0.4, ["suicide".toList], "not suicide".toList, 0.3, "high".toList⟩
    (by decide) (by decide)

/-- Claim C8: adding indicators whose severity dominates every severity
already present (with all severities and confidences in range) can only
raise the base risk score.  The weighted average cannot drop because every
added severity dominates the old average, the indicator-count bonus grows
with the count, and the maximal urgency multiplier grows with the set. -/
theorem claim_c8_monotonic (A C : List CrisisIndicator)
    (hA : ∀ i ∈ A, 0 ≤ i.severity ∧ 0 ≤ i.confidence)
    (hC : ∀ i ∈ C, 0 ≤ i.severity ∧ 0 ≤ i.confidence)
    (hsev : ∀ c ∈ C, ∀ a ∈ A, a.severity ≤ c.severity) :
    calculate_base_risk_score A ≤ calculate_base_risk_score (A ++ C) := by
  have hB : ∀ i ∈ A ++ C, 0 ≤ i.severity ∧ 0 ≤ i.confidence := by
    intro i hi
    rcases List.mem_append.mp hi with hi | hi
    · exact hA i hi
    · exact hC i hi
  by_cases hAe : A.isEmpty = true
  · have h0 : calculate_base_risk_score A = 0 := by
      unfold calculate_base_risk_score
      rw [if_pos hAe]
    rw [h0]
    exact (calculate_base_risk_score_bounds (A ++ C) hB).1
  · by_cases hWA : (A.map (fun i => i.confidence)).sum = 0
    · have h0 : calculate_base_risk_score A = 0 := by
        unfold calculate_base_risk_score
        rw [if_neg hAe]
        dsimp only
        rw [if_pos hWA]
      rw [h0]
      exact (calculate_base_risk_score_bounds (A ++ C) hB).1
    · have hAne : A ≠ [] := fun hh => hAe (List.isEmpty_iff.mpr hh)
      have hBe : ¬((A ++ C).isEmpty = true) := by
        rw [List.isEmpty_iff]
        intro hh
        rcases List.append_eq_nil.mp hh with ⟨h1, _⟩
        exact hAne h1
      have hWA0 : 0 ≤ (A.map (fun i => i.confidence)).sum := by
        apply List.sum_nonneg
        intro q hq
        rw [List.mem_map] at hq
        obtain ⟨j, hj, rfl⟩ := hq
        exact (hA j hj).2
      have hWApos : 0 < (A.map (fun i => i.confidence)).sum :=
        lt_of_le_of_ne hWA0 (fun hh => hWA hh.symm)
      have hWC0 : 0 ≤ (C.map (fun i => i.confidence)).sum := by
        apply List.sum_nonneg
        intro q hq
        rw [List.mem_map] at hq
        obtain ⟨j, hj, rfl⟩ := hq
        exact (hC j hj).2
      have hWBsum : ((A ++ C).map (fun i => i.confidence)).sum
          = (A.map (fun i => i.confidence)).sum + (C.map (fun i => i.confidence)).sum := by
        rw [List.map_append, List.sum_append]
      have hWBpos : 0 < ((A ++ C).map (fun i => i.confidence)).sum := by
        rw [hWBsum]
        linarith
      have hWB : ¬(((A ++ C).map (fun i => i.confidence)).sum = 0) := ne_of_gt hWBpos
      have hSBsum : ((A ++ C).map (fun i => i.severity * i.confidence)).sum
          = (A.map (fun i => i.severity * i.confidence)).sum
            + (C.map (fun i => i.severity * i.confidence)).sum := by
        rw [List.map_append, List.sum_append]
      -- the key cross inequality: SA * WC <= SC * WA
      have hkey : (A.map (fun i => i.severity * i.confidence)).sum
            * (C.map (fun i => i.confidence)).sum
          ≤ (C.map (fun i => i.severity * i.confidence)).sum
            * (A.map (fun i => i.confidence)).sum := by
        have hpt : ∀ c ∈ C,
            (A.map (fun i => i.severity * i.confidence)).sum * c.confidence
              ≤ (c.severity * c.confidence) * (A.map (fun i => i.confidence)).sum := by
          intro c hc
          have hSA : (A.map (fun i => i.severity * i.confidence)).sum
              ≤ c.severity * (A.map (fun i => i.confidence)).sum := by
            rw [← List.sum_map_mul_left]
            apply List.sum_le_sum
            intro a ha
            exact mul_le_mul_of_nonneg_right (hsev c hc a ha) (hA a ha).2
          calc (A.map (fun i => i.severity * i.confidence)).sum * c.confidence
              ≤ (c.severity * (A.map (fun i => i.confidence)).sum) * c.confidence :=
                mul_le_mul_of_nonneg_right hSA (hC c hc).2
            _ = (c.severity * c.confidence) * (A.map (fun i => i.confidence)).sum := by ring
        calc (A.map (fun i => i.severity * i.confidence)).sum
              * (C.map (fun i => i.confidence)).sum
            = (C.map (fun c => (A.map (fun i => i.severity * i.confidence)).sum
                * c.confidence)).sum := by
              rw [List.sum_map_mul_left]
          _ ≤ (C.map (fun c => (c.severity * c.confidence)
                * (A.map (fun i => i.confidence)).sum)).sum := by
              apply List.sum_le_sum
              intro c hc
              exact hpt c hc
          _ = (C.map (fun i => i.severity * i.confidence)).sum
                * (A.map (fun i => i.confidence)).sum := by
              rw [List.sum_map_mul_right]
      have havg : (A.map (fun i => i.severity * i.confidence)).sum
            / (A.map (fun i => i.confidence)).sum
          ≤ ((A ++ C).map (fun i => i.severity * i.confidence)).sum
            / ((A ++ C).map (fun i => i.confidence)).sum := by
        rw [div_le_div_iff hWApos hWBpos, hSBsum, hWBsum]
        nlinarith [hkey]
      have hbonus : min ((A.length : ℚ) * 0.05) 0.2
          ≤ min (((A ++ C).length : ℚ) * 0.05) 0.2 := by
        apply min_le_min _ le_rfl
        have : (A.length : ℚ) ≤ ((A ++ C).length : ℚ) := by
          rw [List.length_append]
          push_cast
          linarith [Nat.cast_nonneg (α := ℚ) C.length]
        linarith
      have hbonus0 : 0 ≤ min (((A ++ C).length : ℚ) * 0.05) 0.2 := by
        apply le_min
        · positivity
        · norm_num
      have hurg : maxQ (A.map (fun i => urgency_to_multiplier i.urgency_level))
          ≤ maxQ ((A ++ C).map (fun i => urgency_to_multiplier i.urgency_level)) := by
        cases hAc : A with
        | nil => exact absurd rfl (hAc ▸ hAne)
        | cons a A' =>
          show maxQ (urgency_to_multiplier a.urgency_level
              :: A'.map (fun i => urgency_to_multiplier i.urgency_level))
            ≤ maxQ (urgency_to_multiplier a.urgency_level
              :: (A' ++ C).map (fun i => urgency_to_multiplier i.urgency_level))
          unfold maxQ
          dsimp only
          rw [List.map_append, List.foldl_append]
          exact le_foldl_max _ _
      have hurg0A : 0 ≤ maxQ (A.map (fun i => urgency_to_multiplier i.urgency_level)) := by
        cases hAc : A with
        | nil => exact absurd rfl (hAc ▸ hAne)
        | cons a A' =>
          show (0 : ℚ) ≤ maxQ (urgency_to_multiplier a.urgency_level
            :: A'.map (fun i => urgency_to_multiplier i.urgency_level))
          unfold maxQ
          dsimp only
          calc (0 : ℚ) ≤ 1 := by norm_num
            _ ≤ urgency_to_multiplier a.urgency_level := urgency_to_multiplier_ge_one _
            _ ≤ _ := le_foldl_max _ _
      unfold calculate_base_risk_score
      rw [if_neg hAe, if_neg hBe]
      dsimp only
      rw [if_neg hWA, if_neg hWB]
      apply round3_mono
      apply min_le_min _ le_rfl
      have hmul := mul_le_mul hbonus hurg hurg0A hbonus0
      linarith

/-- Witness for C8 at a concrete pair of indicator sets. -/
theorem claim_c8_monotonic_witness :
    calculate_base_risk_score
        [(⟨"a".toList, 0.5, [], "x".toList, 0.5, "low".toList⟩ : CrisisIndicator)]
      ≤ calculate_base_risk_score
        ([(⟨"a".toList, 0.5, [], "x".toList, 0.5, "low".toList⟩ : CrisisIndicator)]
          ++ [(⟨"b".toList, 0.9, [], "y".toList, 0.8, "high".toList⟩ : CrisisIndicator)]) :=
  claim_c8_monotonic _ _ (by decide) (by decide) (by decide)

end CrisisModel
